import Mathlib

/-!
Verification development for the Plex music-provider adapter
(`music_assistant/music_providers/plex.py`) and the web layer
(`music_assistant/web.py`).

The Python code is shallowly embedded: the class-scoped mutable state of
`PlexProvider` (`_uids`, `_throttler`, both defined at class scope,
plex.py lines 48-49) is modelled as one `ClassState` value threaded
explicitly; Python object identity is modelled with a heap (a list of
media objects addressed by position); Python exceptions become `Except`;
network responses are passed in as explicit parameters.
-/

set_option autoImplicit false

namespace PlexSpec

/-! ## Python dictionary primitives

`d.get(k, None)` and `d[k] = v` on a `dict`, modelled on an association
list that keeps insertion order (as Python dicts do). -/

def dict_get {α : Type} (d : List (String × α)) (k : String) : Option α :=
  match d with
  | [] => none
  | (k', v) :: rest => if k' = k then some v else dict_get rest k

def dict_set {α : Type} (d : List (String × α)) (k : String) (v : α) :
    List (String × α) :=
  match d with
  | [] => [(k, v)]
  | (k', v') :: rest => if k' = k then (k', v) :: rest else (k', v') :: dict_set rest k v

/-- Python truthiness of an optional integer field (`if plex_album.year:`
is false both for a missing year and for year 0). -/
def nat_truthy (x : Option Nat) : Bool :=
  match x with
  | none => false
  | some n => n != 0

/-- Python truthiness of an optional string field (missing and `""` are falsy). -/
def str_truthy (x : Option String) : Bool :=
  match x with
  | none => false
  | some s => s != ""

/-- Python `str()` applied to an optional identifier: `str(None) = "None"`. -/
def str_of_opt (x : Option String) : String :=
  match x with
  | none => "None"
  | some s => s

/-! ## Data model

Modelled from the spec: `music_assistant.models.media_items` and
`music_assistant.models.enums` are imported by plex.py but are not under
src/; the record shapes below follow spec section 3 ("MediaItem",
"provider_ids (ordered set of \x7bnative_id, provider, url, quality,
availability\x7d)") and the constructor keywords used by plex.py. -/

inductive ProviderType
  | plex
deriving DecidableEq, Repr

inductive AlbumType
  | album
  | single
  | compilation
deriving DecidableEq, Repr

inductive MKind
  | artist
  | album
  | track
  | playlist
deriving DecidableEq, Repr

/-- Modelled from the spec: one `provider_ids` entry
(native id, provider, url, quality, availability), as constructed by
plex.py with keywords `item_id, prov_type, prov_id, quality, url,
details, available`. -/
structure MediaItemProviderId where
  item_id : String
  prov_type : ProviderType
  prov_id : String
  quality : Option Nat := none
  url : Option String := none
  details : Option String := none
  available : Bool := true
deriving DecidableEq, Repr

/-- Modelled from the spec: a canonical media object (spec section 3,
MediaItem variants Artist / Album / Track / Playlist).  One record type
covers all variants, mirroring Python's dynamic attributes: `artist` is
the album's artist reference, `album` the track's album reference,
`artists` the track's artist list; references are heap addresses. -/
structure MediaObj where
  kind : MKind
  item_id : String
  provider : ProviderType
  name : String
  version : Option String := none
  duration : Option Nat := none
  year : Option Nat := none
  description : Option String := none
  checksum : Option String := none
  album_type : Option AlbumType := none
  provider_ids : List MediaItemProviderId := []
  artist : Option Nat := none
  album : Option Nat := none
  artists : List Nat := []
deriving DecidableEq, Repr

/-- Class-scoped mutable state of `PlexProvider`: the heap of live media
objects (Python object identity = heap address) and the identity cache
`_uids` (plex.py line 49, a class attribute, hence one dict shared by
every instance of the class). -/
structure ClassState where
  heap : List MediaObj
  uids : List (String × Nat)
deriving DecidableEq, Repr

def init_state : ClassState := { heap := [], uids := [] }

/-- One adapter instance; `id` is `self.id` (the provider instance id
used as `prov_id`).  Per-instance state is only this id: `_uids` and
`_throttler` are class attributes that instances never shadow. -/
structure Inst where
  id : String
deriving DecidableEq, Repr

/-- Python exceptions that can escape the embedded fragments. -/
inductive PyErr
  | attributeError
  | typeError
  | keyError
  | indexError
  | jsonDecodeError
  | mediaNotFound (msg : String)
deriving DecidableEq, Repr

/-! ## Raw Plex records

Duck-typed plexapi objects as consumed by plex.py: only the attributes
the adapter reads. `ratingKey` is kept as the string the code obtains
via `str(...)`; `parentRatingKey` and the `artist()` / `album()` call
results are optional, a `none` modelling Python `None`. -/

structure RawArtist where
  ratingKey : String
  title : String
  key : String
  summary : String
deriving DecidableEq, Repr

structure RawAlbum where
  ratingKey : String
  title : String
  key : String
  year : Option Nat
  summary : Option String
  parentRatingKey : Option String
  artistObj : Option RawArtist
deriving DecidableEq, Repr

structure RawTrack where
  ratingKey : String
  title : String
  key : String
  duration : Nat
  albumObj : Option RawAlbum
  artistObj : Option RawArtist
deriving DecidableEq, Repr

structure RawPlaylist where
  ratingKey : String
  title : String
  key : String
  updatedAt : String
deriving DecidableEq, Repr

/-! ## Heap helpers -/

/-- In-place attribute mutation of the object at address `a` (a no-op on
a dangling address, which never occurs in the embedded code paths). -/
def heap_modify : List MediaObj → Nat → (MediaObj → MediaObj) → List MediaObj
  | [], _, _ => []
  | o :: rest, 0, f => f o :: rest
  | o :: rest, n + 1, f => o :: heap_modify rest n f

/-- Embeds `album.artist = artist` (plex.py line 483). -/
def set_artist (s : ClassState) (a x : Nat) : ClassState :=
  { s with heap := heap_modify s.heap a (fun o => { o with artist := some x }) }

/-- Embeds `track.album = album` (plex.py line 551). -/
def set_album_field (s : ClassState) (t x : Nat) : ClassState :=
  { s with heap := heap_modify s.heap t (fun o => { o with album := some x }) }

/-- Embeds `track.artists.append(artist)` (plex.py line 558). -/
def append_artist_field (s : ClassState) (t x : Nat) : ClassState :=
  { s with heap := heap_modify s.heap t (fun o => { o with artists := o.artists ++ [x] }) }

/-- Embeds `track.add_provider_id(...)` on an already-allocated track
(plex.py lines 582-592). -/
def append_provider_id (s : ClassState) (t : Nat) (pid : MediaItemProviderId) :
    ClassState :=
  { s with heap := heap_modify s.heap t (fun o => { o with provider_ids := o.provider_ids ++ [pid] }) }

/-! ## Canonicalization (`_process_artist`, `_process_album`,
`_process_track`, `_parse_playlist`) -/

/-- The Artist object built by `_process_artist` on a cache miss
(plex.py lines 416-431): name and provider-id from the raw record,
`metadata.description` from `plex_artist.summary`. -/
def artist_from_raw (inst : Inst) (ra : RawArtist) : MediaObj :=
  { kind := .artist
    item_id := ra.ratingKey
    provider := .plex
    name := ra.title
    provider_ids := [{ item_id := ra.ratingKey, prov_type := .plex,
                       prov_id := inst.id, url := some ra.key }]
    description := some ra.summary }

/-- Embeds `PlexProvider._process_artist` (plex.py lines 409-433).
`raw = none` models being called with Python `None`, on which
`plex_artist.ratingKey` raises AttributeError.  On a cache hit the
cached object is returned unchanged; on a miss the new Artist is
allocated and cached under `str(plex_artist.ratingKey)`. -/
def process_artist (inst : Inst) (raw : Option RawArtist) (s : ClassState) :
    Except PyErr Nat × ClassState :=
  match raw with
  | none => (.error .attributeError, s)
  | some ra =>
    match dict_get s.uids ra.ratingKey with
    | some a => (.ok a, s)
    | none =>
      (.ok s.heap.length,
       { heap := s.heap ++ [artist_from_raw inst ra],
         uids := dict_set s.uids ra.ratingKey s.heap.length })

/-- The Album object built by `_process_album` on a cache miss
(plex.py lines 447-472): `version = None`, one provider id with
`details = "Todo: Album Details?"`, `album_type = ALBUM`, year and
description only when the raw values are truthy. -/
def album_from_raw (inst : Inst) (raw : RawAlbum) : MediaObj :=
  { kind := .album
    item_id := raw.ratingKey
    provider := .plex
    name := raw.title
    version := none
    provider_ids := [{ item_id := raw.ratingKey, prov_type := .plex,
                       prov_id := inst.id, quality := none,
                       url := some raw.key,
                       details := some "Todo: Album Details?",
                       available := true }]
    album_type := some .album
    year := if nat_truthy raw.year then raw.year else none
    description := if str_truthy raw.summary then raw.summary else none }

/-- Embeds the tail of `_process_album` (plex.py lines 475-483), which
runs on every call, cache hit or miss: look up
`str(plex_album.parentRatingKey)` in `_uids`, fall back to
`_process_artist(plex_album.artist())`, then assign `album.artist`. -/
def album_artist_phase (inst : Inst) (raw : RawAlbum) (a : Nat) (s1 : ClassState) :
    Except PyErr Nat × ClassState :=
  match dict_get s1.uids (str_of_opt raw.parentRatingKey) with
  | some x => (.ok a, set_artist s1 a x)
  | none =>
    match process_artist inst raw.artistObj s1 with
    | (.error e, s2) => (.error e, s2)
    | (.ok x, s2) => (.ok a, set_artist s2 a x)

/-- Embeds `PlexProvider._process_album` (plex.py lines 435-485): on a
miss the Album is constructed and cached (lines 440-473), then the
artist phase (lines 475-483) always runs. -/
def process_album (inst : Inst) (raw : RawAlbum) (s : ClassState) :
    Except PyErr Nat × ClassState :=
  match dict_get s.uids raw.ratingKey with
  | some a => album_artist_phase inst raw a s
  | none =>
    album_artist_phase inst raw s.heap.length
      { heap := s.heap ++ [album_from_raw inst raw],
        uids := dict_set s.uids raw.ratingKey s.heap.length }

/-- The bare Track object built by `_process_track` before its album,
artists and provider id are attached (plex.py lines 538-547). -/
def track_base (raw : RawTrack) : MediaObj :=
  { kind := .track
    item_id := raw.ratingKey
    provider := .plex
    name := raw.title
    duration := some raw.duration }

def track_provider_id (inst : Inst) (raw : RawTrack) : MediaItemProviderId :=
  { item_id := raw.ratingKey, prov_type := .plex, prov_id := inst.id,
    url := some raw.key }

/-- Embeds `PlexProvider._process_track` (plex.py lines 531-595).  On a
cache hit the cached object is returned unchanged.  On a miss: allocate
the track, process `plex_track.album()` (a `None` album raises inside
`_process_album`), set `track.album`, process the artist with the
album-artist fallback (lines 553-556), append it to `track.artists`,
attach the provider id, and cache the track. -/
def process_track (inst : Inst) (raw : RawTrack) (s : ClassState) :
    Except PyErr Nat × ClassState :=
  match dict_get s.uids raw.ratingKey with
  | some a => (.ok a, s)
  | none =>
    let t := s.heap.length
    let s1 : ClassState := { s with heap := s.heap ++ [track_base raw] }
    match raw.albumObj with
    | none => (.error .attributeError, s1)
    | some rAlbum =>
      match process_album inst rAlbum s1 with
      | (.error e, s2) => (.error e, s2)
      | (.ok albAddr, s2) =>
        let s3 := set_album_field s2 t albAddr
        let plexArtist : Option RawArtist :=
          match raw.artistObj with
          | some ra => some ra
          | none => rAlbum.artistObj
        match process_artist inst plexArtist s3 with
        | (.error e, s4) => (.error e, s4)
        | (.ok artAddr, s4) =>
          let s5 := append_artist_field s4 t artAddr
          let s6 := append_provider_id s5 t (track_provider_id inst raw)
          (.ok t, { s6 with uids := dict_set s6.uids raw.ratingKey t })

/-- The Playlist object built by `_parse_playlist` (plex.py lines
597-618): name, provider id, `metadata.checksum = str(updatedAt)`. -/
def playlist_from_raw (inst : Inst) (raw : RawPlaylist) : MediaObj :=
  { kind := .playlist
    item_id := raw.ratingKey
    provider := .plex
    name := raw.title
    provider_ids := [{ item_id := raw.ratingKey, prov_type := .plex,
                       prov_id := inst.id, url := some raw.key }]
    checksum := some raw.updatedAt }

/-- Embeds `PlexProvider._parse_playlist` (plex.py lines 597-618): a
fresh Playlist object is constructed on every call; it is never put into
`_uids`. -/
def parse_playlist (inst : Inst) (raw : RawPlaylist) (s : ClassState) :
    Except PyErr Nat × ClassState :=
  (.ok s.heap.length, { s with heap := s.heap ++ [playlist_from_raw inst raw] })

/-- The identity cache holds at most one entry per native-id key. -/
def uids_nodup (s : ClassState) : Prop :=
  (s.uids.map Prod.fst).Nodup

/-! ## JSON values and Python operations on them

Used by `_get_data` / `_post_data` / `_get_all_items`: the decoded body
of an API response and the Python operations the code applies to it
(`"error" in result`, `result["status"]`, `result.get(key)`, truthiness,
iteration, `len`, item assignment). -/

inductive Json
  | obj (fields : List (String × Json))
  | arr (elems : List Json)
  | str (s : String)
  | num (n : Int)
  | jbool (b : Bool)
  | null

/-- List-of-characters infix test, used for Python `needle in haystack`
on strings. -/
def chars_prefix : List Char → List Char → Bool
  | [], _ => true
  | _ :: _, [] => false
  | a :: as, b :: bs => a == b && chars_prefix as bs

def chars_infix (n : List Char) : List Char → Bool
  | [] => chars_prefix n []
  | b :: bs => chars_prefix n (b :: bs) || chars_infix n bs

/-- Python `needle in haystack` for strings (substring test). -/
def is_substr (needle hay : String) : Bool :=
  chars_infix needle.data hay.data

/-- Python `==` between the string `k` and a JSON value: true only for an
equal string (booleans, numbers, null, lists and dicts never equal a
string). -/
def jstr_eq (k : String) : Json → Bool
  | .str s => s == k
  | _ => false

/-- Python `k in v`: key membership for a dict, element membership for a
list, substring for a string; TypeError on scalars. -/
def json_has_key (v : Json) (k : String) : Except PyErr Bool :=
  match v with
  | .obj fs => .ok (fs.any (fun p => p.1 == k))
  | .arr xs => .ok (xs.any (jstr_eq k))
  | .str s => .ok (is_substr k s)
  | .num _ => .error .typeError
  | .jbool _ => .error .typeError
  | .null => .error .typeError

/-- Python `v[k]` with a string key: dict lookup (KeyError when absent),
TypeError on every other shape. -/
def json_index (v : Json) (k : String) : Except PyErr Json :=
  match v with
  | .obj fs =>
    match fs.find? (fun p => p.1 == k) with
    | some p => .ok p.2
    | none => .error .keyError
  | _ => .error .typeError

/-- Python `v.get(k)`: `None` when absent; AttributeError when `v` is not
a dict. -/
def json_get_default (v : Json) (k : String) : Except PyErr Json :=
  match v with
  | .obj fs =>
    match fs.find? (fun p => p.1 == k) with
    | some p => .ok p.2
    | none => .ok .null
  | _ => .error .attributeError

/-- Python `v[k] = x` on a JSON value: dict item assignment, TypeError
otherwise. -/
def json_set_key (v : Json) (k : String) (x : Json) : Except PyErr Json :=
  match v with
  | .obj fs => .ok (.obj (dict_set fs k x))
  | _ => .error .typeError

/-- Python truthiness of a JSON value. -/
def py_truthy : Json → Bool
  | .obj fs => !fs.isEmpty
  | .arr xs => !xs.isEmpty
  | .str s => s != ""
  | .num n => n != 0
  | .jbool b => b
  | .null => false

/-- Python `for item in v`: elements of a list, keys of a dict,
characters of a string; TypeError on scalars. -/
def json_iterate : Json → Except PyErr (List Json)
  | .arr xs => .ok xs
  | .obj fs => .ok (fs.map (fun p => .str p.1))
  | .str s => .ok (s.data.map (fun c => .str (String.mk [c])))
  | _ => .error .typeError

/-- Python `len(v)`; TypeError on scalars. -/
def json_len : Json → Except PyErr Nat
  | .arr xs => .ok xs.length
  | .obj fs => .ok fs.length
  | .str s => .ok s.length
  | _ => .error .typeError

/-! ## API transport (`_get_data`, `_post_data`, `_get_all_items`) -/

/-- Observable effects of one API call, in order of occurrence:
acquiring the throttler slot, issuing the HTTP request, logging. -/
inductive Event
  | acquire
  | httpGet (endpoint : String)
  | httpPost (endpoint : String)
  | logError
  | logDebug
deriving DecidableEq, Repr

/-- The backend's answer to one HTTP request: either `response.json()`
raises (wrong content type / JSON decode failure) or it yields a JSON
value. -/
inductive ApiResponse
  | malformed
  | json (v : Json)

/-- Embeds `PlexProvider._get_data` (plex.py lines 657-697).
`auth` is `await self._auth_token()` (`none` when not logged in).  The
header and request-signing construction is omitted: it only shapes the
outgoing request, never the return value.  Faithful behaviour kept: the
early `None` return when not logged in (with a debug log); the throttler
slot is acquired before the GET; a ContentTypeError / JSONDecodeError is
caught and logged and the call returns `None`; an error payload
(`"error" in result` or `"error" in result["status"]`) is logged and the
call returns `None`; a TypeError from applying `in` to a scalar body is
not caught. -/
def get_data (auth : Option String) (endpoint : String) (resp : ApiResponse) :
    Except PyErr (Option Json) × List Event :=
  if endpoint ≠ "user/login" ∧ auth = none then
    (.ok none, [.logDebug])
  else
    let pre : List Event := [.acquire, .httpGet endpoint]
    match resp with
    | .malformed => (.ok none, pre ++ [.logError])
    | .json v =>
      match json_has_key v "error" with
      | .error e => (.error e, pre)
      | .ok true => (.ok none, pre ++ [.logError])
      | .ok false =>
        match json_has_key v "status" with
        | .error e => (.error e, pre)
        | .ok false => (.ok (some v), pre)
        | .ok true =>
          match json_index v "status" with
          | .error e => (.error e, pre)
          | .ok sv =>
            match json_has_key sv "error" with
            | .error e => (.error e, pre)
            | .ok true => (.ok none, pre ++ [.logError])
            | .ok false => (.ok (some v), pre)

/-- Embeds `PlexProvider._post_data` (plex.py lines 699-717).  Unlike
`_get_data` there is no `async with self._throttler` block, so no
acquire event precedes the POST, and there is no try/except around
`response.json()`, so a malformed body raises.  The params construction
(`app_id`, `user_auth_token`) is omitted: it only shapes the outgoing
request. -/
def post_data (endpoint : String) (resp : ApiResponse) :
    Except PyErr (Option Json) × List Event :=
  let pre : List Event := [.httpPost endpoint]
  match resp with
  | .malformed => (.error .jsonDecodeError, pre)
  | .json v =>
    match json_has_key v "error" with
    | .error e => (.error e, pre)
    | .ok true => (.ok none, pre ++ [.logError])
    | .ok false =>
      match json_has_key v "status" with
      | .error e => (.error e, pre)
      | .ok false => (.ok (some v), pre)
      | .ok true =>
        match json_index v "status" with
        | .error e => (.error e, pre)
        | .ok sv =>
          match json_has_key sv "error" with
          | .error e => (.error e, pre)
          | .ok true => (.ok none, pre ++ [.logError])
          | .ok false => (.ok (some v), pre)

def plex_page_limit : Nat := 50

/-- Embeds the item-stamping loop of `_get_all_items` (plex.py lines
650-652): each fetched raw record is assigned `item["position"] =
len(all_items) + 1` and appended. -/
def stamp_items (startLen : Nat) : List Json → Except PyErr (List Json)
  | [] => .ok []
  | item :: rest =>
    match json_set_key item "position" (.num (startLen + 1)) with
    | .error e => .error e
    | .ok item' =>
      match stamp_items (startLen + 1) rest with
      | .error e => .error e
      | .ok rest' => .ok (item' :: rest')

/-- Embeds `PlexProvider._get_all_items` (plex.py lines 636-655):
offset/limit pagination, stopping on a `None` result, a falsy
`result.get(key)` or `result[key].get("items")`, or a short page.
`respAt offset` is the backend response to the request at that offset.
The `while True` loop is bounded by explicit fuel; fuel exhaustion
(which models only non-termination, never reached in the theorems)
returns the items collected so far. -/
def get_all_items (auth : Option String) (endpoint key : String)
    (respAt : Nat → ApiResponse) : Nat → Nat → List Json → Except PyErr (List Json)
  | 0, _, acc => .ok acc
  | fuel + 1, offset, acc =>
    match (get_data auth endpoint (respAt offset)).1 with
    | .error e => .error e
    | .ok none => .ok acc
    | .ok (some result) =>
      match json_get_default result key with
      | .error e => .error e
      | .ok rk =>
        if py_truthy rk = false then .ok acc
        else
          match json_index result key with
          | .error e => .error e
          | .ok rkv =>
            match json_get_default rkv "items" with
            | .error e => .error e
            | .ok itemsTest =>
              if py_truthy itemsTest = false then .ok acc
              else
                match json_index rkv "items" with
                | .error e => .error e
                | .ok itemsVal =>
                  match json_iterate itemsVal with
                  | .error e => .error e
                  | .ok items =>
                    match stamp_items acc.length items with
                    | .error e => .error e
                    | .ok stamped =>
                      if items.length < plex_page_limit then .ok (acc ++ stamped)
                      else
                        get_all_items auth endpoint key respAt fuel
                          (offset + plex_page_limit) (acc ++ stamped)

/-! ## Rate limiter (`_throttler`) -/

/-- The token-bucket throttler object.  plex.py line 48 creates it once
at class scope: `_throttler = Throttler(rate_limit=4, period=1)`. -/
structure Throttler where
  rate_limit : Nat
  period : Nat
deriving DecidableEq, Repr

def class_throttler : Throttler := { rate_limit := 4, period := 1 }

/-- Python attribute lookup of `self._throttler`: no method of
`PlexProvider` ever assigns `self._throttler`, so the lookup always
falls through the (empty) instance dict to the single class attribute,
whatever the instance. -/
def inst_throttler (_ : Inst) : Throttler := class_throttler

/-! ## Stream resolution (`get_stream_details`) -/

/-- Content types that `get_stream_details` can emit (subset of the
`ContentType` enum used by plex.py). -/
inductive ContentType
  | mpeg
  | flac
deriving DecidableEq, Repr

/-- The decoded body of a successful `track/getFileUrl` call, the fields
plex.py reads from `streamdata`. -/
structure TrackFileResult where
  url : Option String
  mime_type : String
  duration : Nat
  sampling_rate : Nat
  bit_depth : Nat
  format_id : Nat
deriving DecidableEq, Repr

/-- Modelled from the spec: `StreamDetails` (spec section 3), restricted
to the fields plex.py fills; the `data` payload and the stop-report
callback are behaviours, not values, and are omitted. -/
structure StreamDetails where
  item_id : String
  provider : ProviderType
  content_type : ContentType
  duration : Nat
  sample_rate : Nat
  bit_depth : Nat
  expires : Nat
  direct : String
deriving DecidableEq, Repr

/-- The format ids `get_stream_details` iterates over.  plex.py line 336
reads `for format_id in []:  #[27, 7, 6, 5]:` — the preference list is
commented out and the literal empty list is iterated. -/
def stream_format_ids : List Nat := []

/-- The quality-fallback scan of `get_stream_details` (plex.py lines
336-348): try each format id, keep the first result that is truthy and
has a truthy `url`, stop there.  `backend fid` is the value `_get_data`
returns for `track/getFileUrl` with that `format_id` (`none` for a
`None` result). -/
def find_streamdata (backend : Nat → Option TrackFileResult) :
    Option TrackFileResult :=
  stream_format_ids.foldl
    (fun acc fid =>
      match acc with
      | some _ => acc
      | none =>
        match backend fid with
        | some r => if str_truthy r.url then some r else none
        | none => none)
    none

/-- Embeds `PlexProvider.get_stream_details` (plex.py lines 333-370):
scan the format ids; without stream data raise MediaNotFoundError; map
the mime type (unsupported mime also raises MediaNotFoundError); build
the StreamDetails with `sample_rate = sampling_rate * 1000` and
`expires = time.time() + 1800`.  The fire-and-forget playback-started
report task does not affect the returned value and is omitted. -/
def get_stream_details (backend : Nat → Option TrackFileResult)
    (item_id : String) (now : Nat) : Except PyErr StreamDetails :=
  match find_streamdata backend with
  | none => .error (.mediaNotFound ("Unable to retrieve stream details for " ++ item_id))
  | some sd =>
    if sd.mime_type = "audio/mpeg" then
      .ok { item_id := item_id, provider := .plex, content_type := .mpeg,
            duration := sd.duration, sample_rate := sd.sampling_rate * 1000,
            bit_depth := sd.bit_depth, expires := now + 1800,
            direct := sd.url.getD "" }
    else if sd.mime_type = "audio/flac" then
      .ok { item_id := item_id, provider := .plex, content_type := .flac,
            duration := sd.duration, sample_rate := sd.sampling_rate * 1000,
            bit_depth := sd.bit_depth, expires := now + 1800,
            direct := sd.url.getD "" }
    else .error (.mediaNotFound ("Unsupported mime type for " ++ item_id))

/-! ## Adapter setup (`setup`, `_get_server`) -/

/-- Provider configuration as read by `setup`: `username` holds the Plex
URL and `password` the token (plex.py lines 77-79).  `none` models a
missing or empty (falsy) credential. -/
structure ProviderConfig where
  enabled : Bool
  username : Option String
  password : Option String
deriving DecidableEq, Repr

/-- Outcome of `PlexServer(url, token)` + `library.section('Music Test')`
(plex.py lines 625-626): the SDK either returns a server object or
raises (Unauthorized on rejected credentials, other exceptions for other
failures). -/
inductive ConnectOutcome
  | success
  | unauthorized
  | sdkFailure (name : String)
deriving DecidableEq, Repr

/-- Errors escaping `setup`. -/
inductive SetupErr
  | loginFailed (msg : String)
  | sdkError (name : String)
deriving DecidableEq, Repr

structure ServerObj where
  url : String
  token : String
deriving DecidableEq, Repr

/-- Embeds `PlexProvider._get_server` (plex.py lines 620-627) on a fresh
instance (`_plex_server` still `None`): construct `PlexServer(url,
token)`; SDK exceptions propagate uncaught. -/
def get_server (url token : String) (outcome : ConnectOutcome) :
    Except SetupErr ServerObj :=
  match outcome with
  | .success => .ok { url := url, token := token }
  | .unauthorized => .error (.sdkError "plexapi.exceptions.Unauthorized")
  | .sdkFailure name => .error (.sdkError name)

/-- A constructed `PlexServer` object defines neither `__bool__` nor
`__len__`, so `if not server:` is always false on a returned object. -/
def server_truthy (_ : ServerObj) : Bool := true

/-- Embeds `PlexProvider.setup` (plex.py lines 70-85): a disabled config
returns False; missing username or password raises
`LoginFailed("Invalid login credentials")`; otherwise `_get_server` runs
(its SDK exceptions propagate) and the `if not server` LoginFailed
branch guards only a falsy server object. -/
def setup (cfg : ProviderConfig) (outcome : ConnectOutcome) :
    Except SetupErr Bool :=
  if cfg.enabled = false then .ok false
  else
    match cfg.username, cfg.password with
    | some u, some p =>
      match get_server u p outcome with
      | .error e => .error e
      | .ok srv =>
        if server_truthy srv then .ok true
        else .error (.loginFailed ("Login failed for user " ++ u))
    | _, _ => .error (.loginFailed "Invalid login credentials")

/-! ## Library enumeration (`get_library_tracks`) -/

/-- Observable effects of `get_library_tracks`. -/
inductive LibEvent
  | searchTracksCalled
  | printedCount (n : Nat)
deriving DecidableEq, Repr

/-- The list the `for` loop of `get_library_tracks` iterates.  plex.py
line 159 reads `for plex_track in []: # self._plex_music.searchTracks():`
— the literal empty list, the fetched track list is commented out. -/
def empty_iteration_list : List RawTrack := []

/-- Embeds `PlexProvider.get_library_tracks` (plex.py lines 155-160):
`searchTracks()` is called and its length printed, then the generator
iterates over the literal `[]`, processing and yielding nothing. -/
def get_library_tracks (inst : Inst) (backendTracks : List RawTrack)
    (s : ClassState) :
    (Except PyErr (List Nat) × ClassState) × List LibEvent :=
  let res :=
    empty_iteration_list.foldl
      (fun acc rt =>
        match acc with
        | (Except.error e, s') => (Except.error e, s')
        | (Except.ok ys, s') =>
          match process_track inst rt s' with
          | (.ok a, s2) => (Except.ok (ys ++ [a]), s2)
          | (.error e, s2) => (Except.error e, s2))
      ((Except.ok []), s)
  (res, [.searchTracksCalled, .printedCount backendTracks.length])

/-! ## Web layer (`web.py`) -/

/-- A response produced by the web handlers: `web.json_response(x)` or
`web.Response(text=s)`. -/
inductive WebResponse
  | json (v : Json)
  | text (s : String)

/-- Player events observable through the command endpoints. -/
inductive CmdEvent
  | invoked (cmd : String) (arg : Option String)
  | loggedUnknownCmd (cmd : String)
  | loggedUnknownPlayer (player_id : String)
deriving DecidableEq, Repr

/-- A registered player as the web layer sees it: the set of attribute
names `getattr(player, cmd, None)` can find, and the value an invoked
command returns. -/
structure PlayerObj where
  methods : List String
  invoke : String → Option String → Json

/-- Embeds `Web.player_command` (web.py lines 225-242): `result = False`;
a missing player logs and falls through; a found command is called (with
the path argument when present); an unknown command name logs
"Received non-existing command" and leaves `result = False`; the handler
always answers `web.json_response(result)`. -/
def player_command (player? : Option PlayerObj) (player_id cmd : String)
    (cmd_args : Option String) : WebResponse × List CmdEvent :=
  match player? with
  | none => (.json (.jbool false), [.loggedUnknownPlayer player_id])
  | some player =>
    if player.methods.contains cmd then
      (.json (player.invoke cmd cmd_args), [.invoked cmd cmd_args])
    else
      (.json (.jbool false), [.loggedUnknownCmd cmd])

/-- Invocation of a fixed-name method inside `json_rpc`: the player
looked up by id may be `None`, in which case `await player.play()` etc.
raises AttributeError. -/
def invoke_on (player? : Option PlayerObj) (m : String) (arg : Option String) :
    Except PyErr (List CmdEvent) :=
  match player? with
  | none => .error .attributeError
  | some _ => .ok [.invoked m arg]

/-- Embeds `Web.json_rpc` (web.py lines 337-381): `cmd_str` is
`" ".join(cmds)` and is matched against a closed chain of commands, in
source order (note the substring tests `'power' in cmd_str` and
`'mixer volume' in cmd_str`); any unmatched command string answers
`web.Response(text='command not supported')`, matched ones answer
`'success'`.  `cmds[2]` in the mixer-volume branch raises IndexError
when absent. -/
def json_rpc (player? : Option PlayerObj) (cmds : List String) :
    Except PyErr (WebResponse × List CmdEvent) :=
  let cmd_str := String.intercalate " " cmds
  if cmd_str = "play" then
    (invoke_on player? "play" none).map (fun ev => (.text "success", ev))
  else if cmd_str = "pause" then
    (invoke_on player? "pause" none).map (fun ev => (.text "success", ev))
  else if cmd_str = "stop" then
    (invoke_on player? "stop" none).map (fun ev => (.text "success", ev))
  else if cmd_str = "next" then
    (invoke_on player? "next" none).map (fun ev => (.text "success", ev))
  else if cmd_str = "previous" then
    (invoke_on player? "previous" none).map (fun ev => (.text "success", ev))
  else if is_substr "power" cmd_str then
    (invoke_on player? "power" (cmds.get? 1)).map (fun ev => (.text "success", ev))
  else if cmd_str = "playlist index +1" then
    (invoke_on player? "next" none).map (fun ev => (.text "success", ev))
  else if cmd_str = "playlist index -1" then
    (invoke_on player? "previous" none).map (fun ev => (.text "success", ev))
  else if is_substr "mixer volume" cmd_str then
    match cmds.get? 2 with
    | none => .error .indexError
    | some a =>
      (invoke_on player? "volume_set" (some a)).map (fun ev => (.text "success", ev))
  else if cmd_str = "mixer muting 1" then
    (invoke_on player? "volume_mute" (some "True")).map (fun ev => (.text "success", ev))
  else if cmd_str = "mixer muting 0" then
    (invoke_on player? "volume_mute" (some "False")).map (fun ev => (.text "success", ev))
  else if cmd_str = "button volup" then
    (invoke_on player? "volume_up" none).map (fun ev => (.text "success", ev))
  else if cmd_str = "button voldown" then
    (invoke_on player? "volume_down" none).map (fun ev => (.text "success", ev))
  else if cmd_str = "button power" then
    (invoke_on player? "power_toggle" none).map (fun ev => (.text "success", ev))
  else .ok (.text "command not supported", [])

/-- The disjunction of the `json_rpc` dispatch guards, in source order. -/
def json_rpc_matches (cmds : List String) : Prop :=
  let c := String.intercalate " " cmds
  c = "play" ∨ c = "pause" ∨ c = "stop" ∨ c = "next" ∨ c = "previous" ∨
  is_substr "power" c = true ∨ c = "playlist index +1" ∨
  c = "playlist index -1" ∨ is_substr "mixer volume" c = true ∨
  c = "mixer muting 1" ∨ c = "mixer muting 0" ∨ c = "button volup" ∨
  c = "button voldown" ∨ c = "button power"

instance (cmds : List String) : Decidable (json_rpc_matches cmds) := by
  unfold json_rpc_matches
  exact inferInstance

/-- Python list slicing `xs[a:b]` for non-negative `a`, `b`: the elements
with index `i` satisfying `a ≤ i < b`. -/
def py_slice {α : Type} (xs : List α) (a b : Nat) : List α :=
  (xs.take b).drop a

/-- Embeds `Web.player_queue` (web.py lines 256-266): the handler answers
`web.json_response(player.queue.items[offset:limit])` — the slice upper
bound is the `limit` query parameter itself, not `offset + limit`. -/
def player_queue (queueItems : List Json) (offset limit : Nat) : WebResponse :=
  .json (.arr (py_slice queueItems offset limit))

/-! ## Information order on raw album records

`raw_album_le r2 r1` holds when `r2` is the same album record as `r1`
but possibly with optional data (year, summary, parent link, artist
object) absent: "a raw record that carries less information". -/

def raw_album_le (r2 r1 : RawAlbum) : Prop :=
  r2.ratingKey = r1.ratingKey ∧ r2.title = r1.title ∧ r2.key = r1.key ∧
  (r2.year = r1.year ∨ r2.year = none) ∧
  (r2.summary = r1.summary ∨ r2.summary = none) ∧
  (r2.parentRatingKey = r1.parentRatingKey ∨ r2.parentRatingKey = none) ∧
  (r2.artistObj = r1.artistObj ∨ r2.artistObj = none)

instance (r2 r1 : RawAlbum) : Decidable (raw_album_le r2 r1) := by
  unfold raw_album_le
  exact inferInstance

/-! ## Concrete data used by witnesses and counterexamples -/

def instA : Inst := { id := "plexA" }

def instB : Inst := { id := "plexB" }

def rawArtistX : RawArtist :=
  { ratingKey := "10", title := "Artist X", key := "/library/metadata/10",
    summary := "An artist" }

def rawAlbumY : RawAlbum :=
  { ratingKey := "20", title := "Album Y", key := "/library/metadata/20",
    year := some 1999, summary := some "An album",
    parentRatingKey := some "10", artistObj := some rawArtistX }

/-- `rawAlbumY` with every optional field absent except the artist
object: the same album reported with less information. -/
def rawAlbumY_less : RawAlbum :=
  { ratingKey := "20", title := "Album Y", key := "/library/metadata/20",
    year := none, summary := none,
    parentRatingKey := none, artistObj := some rawArtistX }

def rawTrackZ : RawTrack :=
  { ratingKey := "30", title := "Track Z", key := "/library/metadata/30",
    duration := 200, albumObj := some rawAlbumY, artistObj := some rawArtistX }

def rawPlaylistP : RawPlaylist :=
  { ratingKey := "40", title := "Playlist P", key := "/playlists/40",
    updatedAt := "1650000000" }

/-- A backend that answers `track/getFileUrl` with a playable FLAC URL
for every requested format id. -/
def good_backend : Nat → Option TrackFileResult := fun fid =>
  some { url := some "http://plex.local/stream/30.flac",
         mime_type := "audio/flac", duration := 200,
         sampling_rate := 44, bit_depth := 16, format_id := fid }

/-- A demonstration player exposing the usual command methods. -/
def test_player : PlayerObj :=
  { methods := ["play", "pause", "stop", "next", "previous", "power",
                "volume_set", "volume_mute", "volume_up", "volume_down",
                "power_toggle", "play_url"],
    invoke := fun _ _ => Json.jbool true }

/-! ## Dictionary and heap lemmas -/

theorem dict_get_set_self {α : Type} (d : List (String × α)) (k : String) (v : α) :
    dict_get (dict_set d k v) k = some v := by
  induction d with
  | nil => simp [dict_get, dict_set]
  | cons p rest ih =>
    by_cases h : p.1 = k
    · simp [dict_get, dict_set, h]
    · simp [dict_get, dict_set, h, ih]

theorem dict_get_set_ne {α : Type} (d : List (String × α)) (k1 k2 : String) (v : α)
    (hne : k1 ≠ k2) : dict_get (dict_set d k1 v) k2 = dict_get d k2 := by
  induction d with
  | nil => simp [dict_get, dict_set, hne]
  | cons p rest ih =>
    by_cases h : p.1 = k1
    · simp [dict_get, dict_set, h, hne]
    · simp only [dict_set, h, if_false]
      by_cases h2 : p.1 = k2
      · simp [dict_get, h2]
      · simp [dict_get, h2, ih]

theorem mem_keys_dict_set {α : Type} (d : List (String × α)) (k x : String) (v : α)
    (hx : x ∈ (dict_set d k v).map Prod.fst) :
    x ∈ d.map Prod.fst ∨ x = k := by
  induction d with
  | nil =>
    right
    simpa [dict_set] using hx
  | cons p rest ih =>
    by_cases h : p.1 = k
    · simp only [dict_set, h, if_true, List.map_cons, List.mem_cons] at hx
      rcases hx with hx | hx
      · exact Or.inl (by simp [hx, h])
      · exact Or.inl (by simp only [List.map_cons, List.mem_cons]; exact Or.inr hx)
    · simp only [dict_set, h, if_false, List.map_cons, List.mem_cons] at hx
      rcases hx with hx | hx
      · exact Or.inl (by simp [hx])
      · rcases ih hx with h2 | h2
        · exact Or.inl (by simp only [List.map_cons, List.mem_cons]; exact Or.inr h2)
        · exact Or.inr h2

theorem nodup_dict_set {α : Type} (d : List (String × α)) (k : String) (v : α)
    (hd : (d.map Prod.fst).Nodup) : ((dict_set d k v).map Prod.fst).Nodup := by
  induction d with
  | nil => simp [dict_set]
  | cons p rest ih =>
    simp only [List.map_cons, List.nodup_cons] at hd
    by_cases h : p.1 = k
    · simp only [dict_set, h, if_true, List.map_cons, List.nodup_cons]
      rw [h] at hd
      exact hd
    · simp only [dict_set, h, if_false, List.map_cons, List.nodup_cons]
      refine ⟨fun hmem => ?_, ih hd.2⟩
      rcases mem_keys_dict_set rest k p.1 v hmem with h2 | h2
      · exact hd.1 h2
      · exact h h2

theorem heap_modify_idem (h : List MediaObj) (a : Nat) (f : MediaObj → MediaObj)
    (hf : ∀ o, f (f o) = f o) :
    heap_modify (heap_modify h a f) a f = heap_modify h a f := by
  induction h generalizing a with
  | nil => simp [heap_modify]
  | cons o rest ih =>
    cases a with
    | zero => simp [heap_modify, hf o]
    | succ n => simp [heap_modify, ih n]

theorem set_artist_uids (s : ClassState) (a x : Nat) :
    (set_artist s a x).uids = s.uids := rfl

theorem set_artist_idem (s : ClassState) (a x : Nat) :
    set_artist (set_artist s a x) a x = set_artist s a x := by
  unfold set_artist
  have hm := heap_modify_idem s.heap a (fun o => { o with artist := some x })
    (fun o => rfl)
  simp [hm]

/-! ## Behaviour of `process_artist` -/

theorem process_artist_hit (inst : Inst) (ra : RawArtist) (s : ClassState) (a : Nat)
    (h : dict_get s.uids ra.ratingKey = some a) :
    process_artist inst (some ra) s = (.ok a, s) := by
  simp [process_artist, h]

theorem process_artist_miss (inst : Inst) (ra : RawArtist) (s : ClassState)
    (h : dict_get s.uids ra.ratingKey = none) :
    process_artist inst (some ra) s =
      (.ok s.heap.length,
       { heap := s.heap ++ [artist_from_raw inst ra],
         uids := dict_set s.uids ra.ratingKey s.heap.length }) := by
  simp [process_artist, h]

/-- After any successful `_process_artist` call, the result is cached:
a second call (from any instance) is a cache hit returning the same
address with the state unchanged. -/
theorem process_artist_second (inst1 inst2 : Inst) (ra : RawArtist)
    (s : ClassState) (a : Nat) (s1 : ClassState)
    (h : process_artist inst1 (some ra) s = (.ok a, s1)) :
    process_artist inst2 (some ra) s1 = (.ok a, s1) := by
  cases h0 : dict_get s.uids ra.ratingKey with
  | some x =>
    rw [process_artist_hit inst1 ra s x h0] at h
    simp only [Prod.mk.injEq, Except.ok.injEq] at h
    obtain ⟨rfl, rfl⟩ := h
    exact process_artist_hit inst2 ra s x h0
  | none =>
    rw [process_artist_miss inst1 ra s h0] at h
    simp only [Prod.mk.injEq, Except.ok.injEq] at h
    obtain ⟨rfl, rfl⟩ := h
    exact process_artist_hit inst2 ra _ _ (dict_get_set_self _ _ _)

/-! ## Behaviour of `process_album` -/

theorem process_album_eq_hit (inst : Inst) (raw : RawAlbum) (s : ClassState) (a0 : Nat)
    (h : dict_get s.uids raw.ratingKey = some a0) :
    process_album inst raw s = album_artist_phase inst raw a0 s := by
  simp [process_album, h]

theorem process_album_eq_miss (inst : Inst) (raw : RawAlbum) (s : ClassState)
    (h : dict_get s.uids raw.ratingKey = none) :
    process_album inst raw s =
      album_artist_phase inst raw s.heap.length
        { heap := s.heap ++ [album_from_raw inst raw],
          uids := dict_set s.uids raw.ratingKey s.heap.length } := by
  simp [process_album, h]

/-- Core of album idempotence: when the album is already cached at `a0`
in `sP` and the artist phase ran once from `sP`, running the whole of
`_process_album` again from the resulting state changes nothing. -/
theorem process_album_idem_aux (inst : Inst) (raw : RawAlbum) (sP : ClassState)
    (a0 a : Nat) (s1 : ClassState)
    (hP : dict_get sP.uids raw.ratingKey = some a0)
    (h : album_artist_phase inst raw a0 sP = (.ok a, s1)) :
    process_album inst raw s1 = (.ok a, s1) := by
  cases h1 : dict_get sP.uids (str_of_opt raw.parentRatingKey) with
  | some x =>
    simp only [album_artist_phase, h1] at h
    simp only [Prod.mk.injEq, Except.ok.injEq] at h
    obtain ⟨rfl, rfl⟩ := h
    rw [process_album_eq_hit inst raw (set_artist sP a0 x) a0 hP]
    simp only [album_artist_phase, set_artist_uids, h1]
    rw [set_artist_idem]
  | none =>
    cases h2 : raw.artistObj with
    | none =>
      simp [album_artist_phase, h1, h2, process_artist, Prod.mk.injEq] at h
    | some ra =>
      cases h3 : dict_get sP.uids ra.ratingKey with
      | some x =>
        simp only [album_artist_phase, h1, h2] at h
        rw [process_artist_hit inst ra sP x h3] at h
        simp only [Prod.mk.injEq, Except.ok.injEq] at h
        obtain ⟨rfl, rfl⟩ := h
        rw [process_album_eq_hit inst raw (set_artist sP a0 x) a0 hP]
        simp only [album_artist_phase, set_artist_uids, h1, h2]
        rw [process_artist_hit inst ra (set_artist sP a0 x) x h3]
        simp only []
        rw [set_artist_idem]
      | none =>
        simp only [album_artist_phase, h1, h2] at h
        rw [process_artist_miss inst ra sP h3] at h
        simp only [Prod.mk.injEq, Except.ok.injEq] at h
        obtain ⟨rfl, rfl⟩ := h
        have hne : ra.ratingKey ≠ raw.ratingKey := by
          intro he
          rw [he, hP] at h3
          exact Option.noConfusion h3
        have hph1 : dict_get
            (set_artist
              { heap := sP.heap ++ [artist_from_raw inst ra],
                uids := dict_set sP.uids ra.ratingKey sP.heap.length }
              a0 sP.heap.length).uids raw.ratingKey = some a0 := by
          show dict_get (dict_set sP.uids ra.ratingKey sP.heap.length)
            raw.ratingKey = some a0
          rw [dict_get_set_ne _ _ _ _ hne]
          exact hP
        rw [process_album_eq_hit inst raw _ a0 hph1]
        by_cases h4 : ra.ratingKey = str_of_opt raw.parentRatingKey
        · have hget : dict_get
              (set_artist
                { heap := sP.heap ++ [artist_from_raw inst ra],
                  uids := dict_set sP.uids ra.ratingKey sP.heap.length }
                a0 sP.heap.length).uids (str_of_opt raw.parentRatingKey)
              = some sP.heap.length := by
            show dict_get (dict_set sP.uids ra.ratingKey sP.heap.length)
              (str_of_opt raw.parentRatingKey) = some sP.heap.length
            rw [← h4]
            exact dict_get_set_self _ _ _
          simp only [album_artist_phase, hget]
          rw [set_artist_idem]
        · have hget : dict_get
              (set_artist
                { heap := sP.heap ++ [artist_from_raw inst ra],
                  uids := dict_set sP.uids ra.ratingKey sP.heap.length }
                a0 sP.heap.length).uids (str_of_opt raw.parentRatingKey)
              = none := by
            show dict_get (dict_set sP.uids ra.ratingKey sP.heap.length)
              (str_of_opt raw.parentRatingKey) = none
            rw [dict_get_set_ne _ _ _ _ h4]
            exact h1
          have hget2 : dict_get
              (set_artist
                { heap := sP.heap ++ [artist_from_raw inst ra],
                  uids := dict_set sP.uids ra.ratingKey sP.heap.length }
                a0 sP.heap.length).uids ra.ratingKey
              = some sP.heap.length := by
            show dict_get (dict_set sP.uids ra.ratingKey sP.heap.length)
              ra.ratingKey = some sP.heap.length
            exact dict_get_set_self _ _ _
          simp only [album_artist_phase, hget, h2]
          rw [process_artist_hit inst ra _ sP.heap.length hget2]
          simp only []
          rw [set_artist_idem]

/-- Reprocessing the same raw album record is the identity on state and
returns the same heap address. -/
theorem process_album_idem (inst : Inst) (raw : RawAlbum) (s : ClassState)
    (a : Nat) (s1 : ClassState)
    (h : process_album inst raw s = (.ok a, s1)) :
    process_album inst raw s1 = (.ok a, s1) := by
  cases h0 : dict_get s.uids raw.ratingKey with
  | some a0 =>
    rw [process_album_eq_hit inst raw s a0 h0] at h
    exact process_album_idem_aux inst raw s a0 a s1 h0 h
  | none =>
    rw [process_album_eq_miss inst raw s h0] at h
    exact process_album_idem_aux inst raw _ s.heap.length a s1
      (dict_get_set_self _ _ _) h

/-! ## Behaviour of `process_track` -/

/-- After a successful `_process_track` call the track is cached under
its rating key at the returned address. -/
theorem process_track_cached (inst : Inst) (raw : RawTrack) (s : ClassState)
    (a : Nat) (s1 : ClassState)
    (h : process_track inst raw s = (.ok a, s1)) :
    dict_get s1.uids raw.ratingKey = some a := by
  cases h0 : dict_get s.uids raw.ratingKey with
  | some x =>
    simp only [process_track, h0] at h
    simp only [Prod.mk.injEq, Except.ok.injEq] at h
    obtain ⟨rfl, rfl⟩ := h
    exact h0
  | none =>
    simp only [process_track, h0] at h
    cases h2 : raw.albumObj with
    | none =>
      simp only [h2] at h
      simp at h
    | some rAlbum =>
      simp only [h2] at h
      rcases hpa : process_album inst rAlbum
          { s with heap := s.heap ++ [track_base raw] } with ⟨r2, s2⟩
      rw [hpa] at h
      cases r2 with
      | error e => simp at h
      | ok albAddr =>
        simp only [] at h
        cases h4 : raw.artistObj with
        | some ra =>
          simp only [h4] at h
          rcases hpb : process_artist inst (some ra)
              (set_album_field s2 s.heap.length albAddr) with ⟨r3, s4⟩
          rw [hpb] at h
          cases r3 with
          | error e => simp at h
          | ok artAddr =>
            simp only [Prod.mk.injEq, Except.ok.injEq] at h
            obtain ⟨rfl, rfl⟩ := h
            exact dict_get_set_self _ _ _
        | none =>
          simp only [h4] at h
          rcases hpb : process_artist inst rAlbum.artistObj
              (set_album_field s2 s.heap.length albAddr) with ⟨r3, s4⟩
          rw [hpb] at h
          cases r3 with
          | error e => simp at h
          | ok artAddr =>
            simp only [Prod.mk.injEq, Except.ok.injEq] at h
            obtain ⟨rfl, rfl⟩ := h
            exact dict_get_set_self _ _ _

/-- Reprocessing the same raw track record is the identity on state and
returns the same heap address. -/
theorem process_track_idem (inst : Inst) (raw : RawTrack) (s : ClassState)
    (a : Nat) (s1 : ClassState)
    (h : process_track inst raw s = (.ok a, s1)) :
    process_track inst raw s1 = (.ok a, s1) := by
  have key := process_track_cached inst raw s a s1 h
  simp [process_track, key]

/-! ## Preservation of key uniqueness in the identity cache -/

theorem uids_nodup_process_artist (inst : Inst) (raw : Option RawArtist)
    (s : ClassState) (h : uids_nodup s) :
    uids_nodup ((process_artist inst raw s).2) := by
  cases raw with
  | none => exact h
  | some ra =>
    cases h0 : dict_get s.uids ra.ratingKey with
    | some x =>
      rw [process_artist_hit inst ra s x h0]
      exact h
    | none =>
      rw [process_artist_miss inst ra s h0]
      exact nodup_dict_set _ _ _ h

theorem uids_nodup_aap (inst : Inst) (raw : RawAlbum) (a : Nat) (s1 : ClassState)
    (h : uids_nodup s1) : uids_nodup ((album_artist_phase inst raw a s1).2) := by
  cases h1 : dict_get s1.uids (str_of_opt raw.parentRatingKey) with
  | some x =>
    simp only [album_artist_phase, h1]
    exact h
  | none =>
    simp only [album_artist_phase, h1]
    rcases hpa : process_artist inst raw.artistObj s1 with ⟨r, s2⟩
    have h2 : uids_nodup s2 := by
      have h3 := uids_nodup_process_artist inst raw.artistObj s1 h
      rw [hpa] at h3
      exact h3
    cases r with
    | error e => exact h2
    | ok x => exact h2

theorem uids_nodup_process_album (inst : Inst) (raw : RawAlbum) (s : ClassState)
    (h : uids_nodup s) : uids_nodup ((process_album inst raw s).2) := by
  cases h0 : dict_get s.uids raw.ratingKey with
  | some a0 =>
    rw [process_album_eq_hit inst raw s a0 h0]
    exact uids_nodup_aap inst raw a0 s h
  | none =>
    rw [process_album_eq_miss inst raw s h0]
    exact uids_nodup_aap inst raw _ _ (nodup_dict_set _ _ _ h)

theorem uids_nodup_process_track (inst : Inst) (raw : RawTrack) (s : ClassState)
    (h : uids_nodup s) : uids_nodup ((process_track inst raw s).2) := by
  cases h0 : dict_get s.uids raw.ratingKey with
  | some a =>
    simp only [process_track, h0]
    exact h
  | none =>
    simp only [process_track, h0]
    cases h2 : raw.albumObj with
    | none =>
      simp only [h2]
      exact h
    | some rAlbum =>
      simp only [h2]
      rcases hpa : process_album inst rAlbum
          { s with heap := s.heap ++ [track_base raw] } with ⟨r2, s2⟩
      have hs2 : uids_nodup s2 := by
        have h3 := uids_nodup_process_album inst rAlbum
          { s with heap := s.heap ++ [track_base raw] } h
        rw [hpa] at h3
        exact h3
      cases r2 with
      | error e => exact hs2
      | ok albAddr =>
        simp only []
        cases h4 : raw.artistObj with
        | some ra =>
          simp only [h4]
          rcases hpb : process_artist inst (some ra)
              (set_album_field s2 s.heap.length albAddr) with ⟨r3, s4⟩
          have hs4 : uids_nodup s4 := by
            have h3 := uids_nodup_process_artist inst (some ra)
              (set_album_field s2 s.heap.length albAddr) hs2
            rw [hpb] at h3
            exact h3
          cases r3 with
          | error e => exact hs4
          | ok artAddr =>
            simp only []
            exact nodup_dict_set _ _ _ hs4
        | none =>
          simp only [h4]
          rcases hpb : process_artist inst rAlbum.artistObj
              (set_album_field s2 s.heap.length albAddr) with ⟨r3, s4⟩
          have hs4 : uids_nodup s4 := by
            have h3 := uids_nodup_process_artist inst rAlbum.artistObj
              (set_album_field s2 s.heap.length albAddr) hs2
            rw [hpb] at h3
            exact h3
          cases r3 with
          | error e => exact hs4
          | ok artAddr =>
            simp only []
            exact nodup_dict_set _ _ _ hs4

theorem uids_nodup_parse_playlist (inst : Inst) (raw : RawPlaylist) (s : ClassState)
    (h : uids_nodup s) : uids_nodup ((parse_playlist inst raw s).2) := h

/-! ## Claim theorems -/

/-- C1: the claim says `get_stream_details` tries the stream formats in
a fixed preference order and returns a StreamDetails from the first
format that yields a URL, raising MediaNotFoundError only when every
attempt fails.  The code cannot do this: the format preference list
`[27, 7, 6, 5]` is commented out and the loop iterates the literal empty
list, so no format is ever requested and the call raises
MediaNotFoundError for every item id and every backend — including a
backend that answers every format request with a playable URL
(`good_backend`). -/
theorem c1_stream_always_not_found :
    (∀ (backend : Nat → Option TrackFileResult) (item_id : String) (now : Nat),
      get_stream_details backend item_id now =
        .error (.mediaNotFound ("Unable to retrieve stream details for " ++ item_id)))
  ∧ get_stream_details good_backend "123" 0 =
      .error (.mediaNotFound "Unable to retrieve stream details for 123") :=
  ⟨fun _ _ _ => rfl, rfl⟩

/-- C4 (counterexample): not every network operation acquires a
rate-limiter slot first — `_post_data` (used by the playback-start
report) issues its POST with no `async with self._throttler` block: its
event trace holds no acquire event at all. -/
theorem c4_counterexample :
    (post_data "track/reportStreamingStart" (.json (Json.obj []))).2
      = [Event.httpPost "track/reportStreamingStart"]
  ∧ Event.acquire ∉ (post_data "track/reportStreamingStart" (.json (Json.obj []))).2 := by
  refine ⟨rfl, ?_⟩
  decide

/-- C4 (amended): every GET API call (`_get_data`) acquires a slot from
the token-bucket rate limiter before issuing its HTTP request (or
returns early with only a debug log when not logged in); POST API calls
(`_post_data`) issue their HTTP request first, acquiring no limiter
slot; and the limiter is a single class attribute (rate 4 per 1-second
period) shared by every `PlexProvider` instance rather than owned per
instance. -/
theorem c4_amended :
    ∀ (auth : Option String) (endpoint : String) (resp : ApiResponse),
    ((get_data auth endpoint resp).2 = [Event.logDebug]
      ∨ ∃ rest, (get_data auth endpoint resp).2
          = Event.acquire :: Event.httpGet endpoint :: rest)
  ∧ ((post_data endpoint resp).2 = [Event.httpPost endpoint]
      ∨ (post_data endpoint resp).2 = [Event.httpPost endpoint, Event.logError])
  ∧ Event.acquire ∉ (post_data endpoint resp).2
  ∧ (∀ i1 i2 : Inst, inst_throttler i1 = inst_throttler i2)
  ∧ class_throttler.rate_limit = 4 ∧ class_throttler.period = 1 := by
  intro auth endpoint resp
  have hpost : (post_data endpoint resp).2 = [Event.httpPost endpoint]
      ∨ (post_data endpoint resp).2 = [Event.httpPost endpoint, Event.logError] := by
    unfold post_data
    cases resp with
    | malformed => exact Or.inl rfl
    | json v =>
      dsimp only
      rcases h1 : json_has_key v "error" with e | b
      · exact Or.inl rfl
      · cases b with
        | true => exact Or.inr rfl
        | false =>
          rcases h2 : json_has_key v "status" with e | b2
          · exact Or.inl rfl
          · cases b2 with
            | false => exact Or.inl rfl
            | true =>
              rcases h3 : json_index v "status" with e | sv
              · exact Or.inl rfl
              · dsimp only
                rcases h4 : json_has_key sv "error" with e | b3
                · exact Or.inl rfl
                · cases b3 with
                  | true => exact Or.inr rfl
                  | false => exact Or.inl rfl
  refine ⟨?_, hpost, ?_, fun _ _ => rfl, rfl, rfl⟩
  · unfold get_data
    split
    · exact Or.inl rfl
    · right
      cases resp with
      | malformed => exact ⟨[.logError], rfl⟩
      | json v =>
        dsimp only
        rcases h1 : json_has_key v "error" with e | b
        · exact ⟨[], rfl⟩
        · cases b with
          | true => exact ⟨[.logError], rfl⟩
          | false =>
            rcases h2 : json_has_key v "status" with e | b2
            · exact ⟨[], rfl⟩
            · cases b2 with
              | false => exact ⟨[], rfl⟩
              | true =>
                rcases h3 : json_index v "status" with e | sv
                · exact ⟨[], rfl⟩
                · dsimp only
                  rcases h4 : json_has_key sv "error" with e | b3
                  · exact ⟨[], rfl⟩
                  · cases b3 with
                    | true => exact ⟨[.logError], rfl⟩
                    | false => exact ⟨[], rfl⟩
  · rcases hpost with hp | hp <;> rw [hp] <;> simp

/-- C7 (counterexample): setup does not signal authentication failure
exclusively as LoginFailed.  A disabled configuration with missing
credentials returns False instead of raising, and a configuration whose
credentials the server rejects lets the SDK's Unauthorized exception
escape (the `if not server` LoginFailed fallback only guards a falsy
server object, which `PlexServer` never returns). -/
theorem c7_counterexample :
    setup { enabled := false, username := none, password := none } .success
      = .ok false
  ∧ setup { enabled := true, username := some "http://192.168.1.2:32400",
            password := some "badtoken" } .unauthorized
      = .error (.sdkError "plexapi.exceptions.Unauthorized") :=
  ⟨rfl, rfl⟩

/-- C7 (amended): for every enabled configuration with a missing
username or password, setup raises LoginFailed; a disabled configuration
returns False without raising; when the Plex server rejects the
credentials the SDK exception propagates out of setup unchanged (setup
does not convert it to LoginFailed); on successful authentication setup
returns True. -/
theorem c7_amended :
    ∀ (cfg : ProviderConfig) (outcome : ConnectOutcome),
    (cfg.enabled = false → setup cfg outcome = .ok false)
  ∧ (cfg.enabled = true → cfg.username = none ∨ cfg.password = none →
      setup cfg outcome = .error (.loginFailed "Invalid login credentials"))
  ∧ (∀ u p, cfg.enabled = true → cfg.username = some u → cfg.password = some p →
      outcome = .unauthorized →
      setup cfg outcome = .error (.sdkError "plexapi.exceptions.Unauthorized"))
  ∧ (∀ u p, cfg.enabled = true → cfg.username = some u → cfg.password = some p →
      outcome = .success → setup cfg outcome = .ok true) := by
  intro cfg outcome
  refine ⟨?_, ?_, ?_, ?_⟩
  · intro h
    simp [setup, h]
  · intro h hmiss
    rcases hmiss with hm | hm
    · cases hpw : cfg.password <;> simp [setup, h, hm, hpw]
    · cases hun : cfg.username <;> simp [setup, h, hm, hun]
  · intro u p h hu hp ho
    simp [setup, h, hu, hp, ho, get_server, server_truthy]
  · intro u p h hu hp ho
    simp [setup, h, hu, hp, ho, get_server, server_truthy]

/-- Witness for C7 (amended) at concrete configurations. -/
theorem c7_amended_witness :
    setup { enabled := false, username := some "u", password := some "p" } .success
      = .ok false
  ∧ setup { enabled := true, username := none, password := some "p" } .success
      = .error (.loginFailed "Invalid login credentials")
  ∧ setup { enabled := true, username := some "http://plex.local",
            password := some "tok" } .unauthorized
      = .error (.sdkError "plexapi.exceptions.Unauthorized")
  ∧ setup { enabled := true, username := some "http://plex.local",
            password := some "tok" } .success
      = .ok true :=
  ⟨(c7_amended { enabled := false, username := some "u", password := some "p" }
      .success).1 rfl,
   (c7_amended { enabled := true, username := none, password := some "p" }
      .success).2.1 rfl (Or.inl rfl),
   (c7_amended
      { enabled := true, username := some "http://plex.local", password := some "tok" }
      .unauthorized).2.2.1
     "http://plex.local" "tok" rfl rfl rfl rfl,
   (c7_amended
      { enabled := true, username := some "http://plex.local", password := some "tok" }
      .success).2.2.2
     "http://plex.local" "tok" rfl rfl rfl rfl⟩

/-- C8 (counterexample): a player command whose name is outside the
player's command set does not produce a typed "unsupported command"
error: `Web.player_command` logs the unknown name and answers a plain
JSON `false` with a normal response. -/
theorem c8_counterexample :
    player_command (some test_player) "player1" "frobnicate" none
      = (.json (.jbool false), [.loggedUnknownCmd "frobnicate"]) := rfl

/-- C8 (amended): of the two command endpoints, only `json_rpc` rejects
unknown commands with a dedicated response — any command string outside
its closed dispatch set answers the plain text "command not supported" —
while `player_command` answers an unknown command name with a logged
error and a normal JSON `false` response, not a typed error. -/
theorem c8_amended :
    (∀ (player : PlayerObj) (player_id cmd : String) (cmd_args : Option String),
      player.methods.contains cmd = false →
      player_command (some player) player_id cmd cmd_args
        = (.json (.jbool false), [.loggedUnknownCmd cmd]))
  ∧ (∀ (player? : Option PlayerObj) (cmds : List String),
      ¬ json_rpc_matches cmds →
      json_rpc player? cmds = .ok (.text "command not supported", [])) := by
  constructor
  · intro player pid cmd args h
    unfold player_command
    dsimp only
    rw [h]
    simp
  · intro player? cmds h
    unfold json_rpc_matches at h
    dsimp only at h
    push_neg at h
    obtain ⟨h1, h2, h3, h4, h5, h6, h7, h8, h9, h10, h11, h12, h13, h14⟩ := h
    unfold json_rpc
    dsimp only
    rw [if_neg h1, if_neg h2, if_neg h3, if_neg h4, if_neg h5, if_neg h6,
        if_neg h7, if_neg h8, if_neg h9, if_neg h10, if_neg h11, if_neg h12,
        if_neg h13, if_neg h14]

/-- Witness for C8 (amended) at a concrete unknown command. -/
theorem c8_amended_witness :
    player_command (some test_player) "player2" "doesnotexist" none
      = (.json (.jbool false), [.loggedUnknownCmd "doesnotexist"])
  ∧ json_rpc (some test_player) ["frobnicate"]
      = .ok (.text "command not supported", []) :=
  ⟨c8_amended.1 test_player "player2" "doesnotexist" none (by decide),
   c8_amended.2 (some test_player) ["frobnicate"] (by decide)⟩

/-- C9: `get_library_tracks` fetches the backend's track list (the
`searchTracks` call happens and its length is printed) but iterates the
literal empty list, so for every provider state and every backend track
list the enumeration yields no track and leaves the state unchanged. -/
theorem c9_library_tracks_empty :
    ∀ (inst : Inst) (backendTracks : List RawTrack) (s : ClassState),
      (get_library_tracks inst backendTracks s).1 = (.ok [], s)
    ∧ LibEvent.searchTracksCalled ∈ (get_library_tracks inst backendTracks s).2 := by
  intro inst bts s
  exact ⟨rfl, by simp [get_library_tracks]⟩

/-- C10: the queue-inspection endpoint answers the Python slice
`queue.items[offset:limit]` — the upper bound is the absolute index
`limit`, not `offset + limit` — hence an empty page whenever
`offset ≥ limit` and never more than `limit - offset` items. -/
theorem c10_queue_slice :
    ∀ (items : List Json) (offset limit : Nat),
      player_queue items offset limit
        = .json (.arr ((items.take limit).drop offset))
    ∧ (limit ≤ offset → player_queue items offset limit = .json (.arr []))
    ∧ ((items.take limit).drop offset).length ≤ limit - offset := by
  intro items offset limit
  refine ⟨rfl, ?_, ?_⟩
  · intro hle
    unfold player_queue py_slice
    have hlen : (items.take limit).length ≤ offset :=
      le_trans (List.length_take_le _ _) hle
    rw [List.drop_eq_nil_of_le hlen]
  · rw [List.length_drop]
    exact Nat.sub_le_sub_right (List.length_take_le _ _) offset

/-- Witness for C10 at a concrete queue: with offset 2 and limit 1 the
page is empty although the queue holds an item at index 2. -/
theorem c10_queue_slice_witness :
    player_queue [Json.num 1, Json.num 2, Json.num 3] 2 1 = .json (.arr [])
  ∧ (1 : Nat) ≤ 2
  ∧ 2 < ([Json.num 1, Json.num 2, Json.num 3] : List Json).length :=
  ⟨(c10_queue_slice [Json.num 1, Json.num 2, Json.num 3] 2 1).2.1 (by decide),
   by decide, by decide⟩

/-- C2 (counterexample): the identity cache is not owned per adapter
instance.  `_uids` is a class attribute, so after instance A (id
"plexA") canonicalizes artist 10, instance B (id "plexB") retrieves from
the shared cache the very object A created — at the same heap address 0,
still carrying A's provider id — although the two instances are
distinct. -/
theorem c2_counterexample :
    (process_artist instB (some rawArtistX)
        (process_artist instA (some rawArtistX) init_state).2).1 = .ok 0
  ∧ ((process_artist instA (some rawArtistX) init_state).2.heap.get? 0).map
        (fun o => o.provider_ids.map (fun p => p.prov_id)) = some ["plexA"]
  ∧ instA ≠ instB := by
  refine ⟨rfl, rfl, ?_⟩
  decide

/-- C2 (amended): the identity cache is a class attribute shared by
every `PlexProvider` instance — after one instance canonicalizes an
artist, any other instance's call for the same record is a cache hit
returning the same object with the state unchanged — and the cache holds
at most one entry per native-id key (key uniqueness is preserved by
every canonicalization operation). -/
theorem c2_amended :
    (∀ (inst1 inst2 : Inst) (ra : RawArtist) (s : ClassState) (a : Nat)
        (s1 : ClassState),
      process_artist inst1 (some ra) s = (.ok a, s1) →
      process_artist inst2 (some ra) s1 = (.ok a, s1))
  ∧ (∀ (inst : Inst) (raw : Option RawArtist) (s : ClassState),
      uids_nodup s → uids_nodup ((process_artist inst raw s).2))
  ∧ (∀ (inst : Inst) (raw : RawAlbum) (s : ClassState),
      uids_nodup s → uids_nodup ((process_album inst raw s).2))
  ∧ (∀ (inst : Inst) (raw : RawTrack) (s : ClassState),
      uids_nodup s → uids_nodup ((process_track inst raw s).2))
  ∧ (∀ (inst : Inst) (raw : RawPlaylist) (s : ClassState),
      uids_nodup s → uids_nodup ((parse_playlist inst raw s).2)) :=
  ⟨process_artist_second, uids_nodup_process_artist, uids_nodup_process_album,
   uids_nodup_process_track, uids_nodup_parse_playlist⟩

/-- Witness for C2 (amended): instance B's call after instance A's call
is a cache hit with unchanged state, and key uniqueness holds after A's
call from the empty cache. -/
theorem c2_amended_witness :
    process_artist instB (some rawArtistX)
        (process_artist instA (some rawArtistX) init_state).2
      = (.ok 0, (process_artist instA (some rawArtistX) init_state).2)
  ∧ uids_nodup ((process_artist instA (some rawArtistX) init_state).2) :=
  ⟨c2_amended.1 instA instB rawArtistX init_state 0 _ (by rfl),
   c2_amended.2.1 instA (some rawArtistX) init_state (by simp [uids_nodup, init_state])⟩

/-- C3: canonicalization is idempotent for every media variant.
Reprocessing the same raw record through `_process_artist`,
`_process_album` or `_process_track` returns the same heap address (the
same object, hence value-equal with identical nested Artist/Album
references) and leaves the class state unchanged; `_parse_playlist` is
uncached and allocates a fresh object, but the second object is
value-equal to the first (and a playlist carries no nested Artist/Album
references). -/
theorem c3_idempotent :
    (∀ (inst : Inst) (ra : RawArtist) (s : ClassState) (a : Nat) (s1 : ClassState),
      process_artist inst (some ra) s = (.ok a, s1) →
      process_artist inst (some ra) s1 = (.ok a, s1))
  ∧ (∀ (inst : Inst) (raw : RawAlbum) (s : ClassState) (a : Nat) (s1 : ClassState),
      process_album inst raw s = (.ok a, s1) →
      process_album inst raw s1 = (.ok a, s1))
  ∧ (∀ (inst : Inst) (raw : RawTrack) (s : ClassState) (a : Nat) (s1 : ClassState),
      process_track inst raw s = (.ok a, s1) →
      process_track inst raw s1 = (.ok a, s1))
  ∧ (∀ (inst : Inst) (raw : RawPlaylist) (s : ClassState) (a : Nat) (s1 : ClassState),
      parse_playlist inst raw s = (.ok a, s1) →
      ∃ b s2, parse_playlist inst raw s1 = (.ok b, s2) ∧
        s2.heap.get? b = s1.heap.get? a) := by
  refine ⟨fun inst ra s a s1 h => process_artist_second inst inst ra s a s1 h,
          process_album_idem, process_track_idem, ?_⟩
  intro inst raw s a s1 h
  simp only [parse_playlist, Prod.mk.injEq, Except.ok.injEq] at h
  obtain ⟨rfl, rfl⟩ := h
  refine ⟨_, _, rfl, ?_⟩
  rw [List.get?_concat_length, List.get?_concat_length]

/-- Witness for C3 at concrete records processed from the empty state. -/
theorem c3_idempotent_witness :
    process_artist instA (some rawArtistX)
        (process_artist instA (some rawArtistX) init_state).2
      = (.ok 0, (process_artist instA (some rawArtistX) init_state).2)
  ∧ process_album instA rawAlbumY
        (process_album instA rawAlbumY init_state).2
      = (.ok 0, (process_album instA rawAlbumY init_state).2)
  ∧ process_track instA rawTrackZ
        (process_track instA rawTrackZ init_state).2
      = (.ok 0, (process_track instA rawTrackZ init_state).2)
  ∧ ∃ b s2,
      parse_playlist instA rawPlaylistP
          (parse_playlist instA rawPlaylistP init_state).2 = (.ok b, s2)
    ∧ s2.heap.get? b
        = ((parse_playlist instA rawPlaylistP init_state).2).heap.get? 0 :=
  ⟨c3_idempotent.1 instA rawArtistX init_state 0 _ (by rfl),
   c3_idempotent.2.1 instA rawAlbumY init_state 0 _ (by rfl),
   c3_idempotent.2.2.1 instA rawTrackZ init_state 0 _ (by rfl),
   c3_idempotent.2.2.2 instA rawPlaylistP init_state 0 _ (by rfl)⟩

/-- C6: a malformed backend response (content-type or JSON decode
failure) and an error payload (an `error` key, or an `error` inside the
`status` value) both make `_get_data` return `None` instead of raising,
and a bad response makes `_get_all_items` end its pagination normally
with the items collected so far instead of aborting. -/
theorem c6_soft_failure :
    (∀ (auth : Option String) (endpoint : String),
      (get_data auth endpoint .malformed).1 = .ok none)
  ∧ (∀ (auth : Option String) (endpoint : String) (v : Json),
      json_has_key v "error" = .ok true →
      (get_data auth endpoint (.json v)).1 = .ok none)
  ∧ (∀ (auth : Option String) (endpoint : String) (v sv : Json),
      json_has_key v "error" = .ok false →
      json_has_key v "status" = .ok true →
      json_index v "status" = .ok sv →
      json_has_key sv "error" = .ok true →
      (get_data auth endpoint (.json v)).1 = .ok none)
  ∧ (∀ (auth : Option String) (endpoint key : String)
      (respAt : Nat → ApiResponse) (fuel : Nat),
      respAt 0 = ApiResponse.malformed →
      get_all_items auth endpoint key respAt (fuel + 1) 0 [] = .ok []) := by
  refine ⟨?_, ?_, ?_, ?_⟩
  · intro auth ep
    unfold get_data
    split
    · rfl
    · rfl
  · intro auth ep v h
    unfold get_data
    split
    · rfl
    · dsimp only
      rw [h]
  · intro auth ep v sv h1 h2 h3 h4
    unfold get_data
    split
    · rfl
    · dsimp only
      rw [h1, h2, h3]
      dsimp only
      rw [h4]
  · intro auth ep key respAt fuel h
    have hm : (get_data auth ep ApiResponse.malformed).1 = Except.ok none := by
      unfold get_data
      split
      · rfl
      · rfl
    simp only [get_all_items]
    rw [h, hm]

/-- Witness for C6 at concrete malformed and error-payload responses. -/
theorem c6_soft_failure_witness :
    (get_data (some "tok") "catalog/search" .malformed).1 = .ok none
  ∧ (get_data (some "tok") "catalog/search"
        (.json (.obj [("error", .str "bad request")]))).1 = .ok none
  ∧ (get_data (some "tok") "catalog/search"
        (.json (.obj [("status", .obj [("error", .str "bad")])]))).1 = .ok none
  ∧ get_all_items (some "tok") "album/get" "tracks" (fun _ => .malformed) 1 0 []
      = .ok [] :=
  ⟨c6_soft_failure.1 (some "tok") "catalog/search",
   c6_soft_failure.2.1 (some "tok") "catalog/search" _ (by rfl),
   c6_soft_failure.2.2.1 (some "tok") "catalog/search" _ _
     (by rfl) (by rfl) (by rfl) (by rfl),
   c6_soft_failure.2.2.2 (some "tok") "album/get" "tracks"
     (fun _ => .malformed) 0 (by rfl)⟩

/-- C5: backfill-only mutation.  After an album is canonicalized from a
consistent raw record, re-processing a record for the same native id
that carries less information (`raw_album_le`: year, summary, parent
link or artist object possibly absent) leaves the class state — in
particular every field of the cached album object — completely
unchanged; and a cache hit in `_process_artist` or `_process_track`
returns without touching the state at all. -/
theorem c5_backfill_only :
    (∀ (inst : Inst) (raw1 raw2 : RawAlbum) (k : String) (ra : RawArtist),
      raw1.parentRatingKey = some k →
      raw1.artistObj = some ra →
      ra.ratingKey = k →
      k ≠ raw1.ratingKey →
      k ≠ "None" →
      raw1.ratingKey ≠ "None" →
      raw_album_le raw2 raw1 →
      (process_album inst raw1 init_state).1 = .ok 0 ∧
      (process_album inst raw2 (process_album inst raw1 init_state).2).2
        = (process_album inst raw1 init_state).2)
  ∧ (∀ (inst : Inst) (ra : RawArtist) (s : ClassState) (a : Nat),
      dict_get s.uids ra.ratingKey = some a →
      (process_artist inst (some ra) s).2 = s)
  ∧ (∀ (inst : Inst) (rt : RawTrack) (s : ClassState) (a : Nat),
      dict_get s.uids rt.ratingKey = some a →
      (process_track inst rt s).2 = s) := by
  refine ⟨?_, ?_, ?_⟩
  · intro inst raw1 raw2 k ra hp ha hrk hne1 hne2 hne3 hle
    obtain ⟨rk1, t1, ky1, y1, sm1, p1, ao1⟩ := raw1
    obtain ⟨rk2, t2, ky2, y2, sm2, p2, ao2⟩ := raw2
    obtain ⟨hrk2, ht2, hky2, hy2, hsm2, hp2, hao2⟩ := hle
    dsimp only at hp ha hne1 hne3 hrk2 ht2 hky2 hy2 hsm2 hp2 hao2
    subst hp ha hrk2 ht2 hky2 hrk
    rcases hp2 with rfl | rfl <;> rcases hao2 with rfl | rfl <;>
      constructor <;>
      simp [process_album, album_artist_phase, process_artist, dict_get,
            dict_set, set_artist, heap_modify, str_of_opt, init_state,
            hne1, Ne.symm hne1, hne2, Ne.symm hne2, hne3, Ne.symm hne3]
  · intro inst ra s a h
    rw [process_artist_hit inst ra s a h]
  · intro inst rt s a h
    simp [process_track, h]

/-- Witness for C5: album 20 (artist 10) canonicalized from the empty
state, then re-processed with year, summary and parent link absent —
the state is untouched. -/
theorem c5_backfill_only_witness :
    ((process_album instA rawAlbumY init_state).1 = .ok 0
      ∧ (process_album instA rawAlbumY_less
          (process_album instA rawAlbumY init_state).2).2
        = (process_album instA rawAlbumY init_state).2)
  ∧ (process_artist instA (some rawArtistX)
        (process_artist instA (some rawArtistX) init_state).2).2
      = (process_artist instA (some rawArtistX) init_state).2
  ∧ (process_track instA rawTrackZ
        (process_track instA rawTrackZ init_state).2).2
      = (process_track instA rawTrackZ init_state).2 :=
  ⟨c5_backfill_only.1 instA rawAlbumY rawAlbumY_less "10" rawArtistX
     (by rfl) (by rfl) (by rfl) (by decide) (by decide) (by decide) (by decide),
   c5_backfill_only.2.1 instA rawArtistX
     (process_artist instA (some rawArtistX) init_state).2 0 (by rfl),
   c5_backfill_only.2.2 instA rawTrackZ
     (process_track instA rawTrackZ init_state).2 0 (by rfl)⟩

end PlexSpec
